import Mathlib

/-!
Verification of the NSR (Net Smelter Return) calculation engine and its
Goal Seek solver: a shallow embedding in Lean 4 of
`backend/app/nsr_engine/{constants,models,calculations,goal_seek}.py`.
Python floats are modelled as rationals, Python's `round` as exact
round-half-even, raising code as `Except`.
-/

namespace Mining

/- Batteries marks the `Rat` field operations `@[irreducible]`, which keeps
`decide`/`rfl` from evaluating concrete rational arithmetic; restore the
default transparency for this file so concrete witnesses can be checked by
the kernel. -/
attribute [local semireducible] Rat.add Rat.sub Rat.mul Rat.inv

/-- Python exceptions that the embedded engine code can raise.
`valueError` stands for the `ValueError` guards (the spec's
"InvalidParameter"); `zeroDivision` for Python's `ZeroDivisionError`
raised by `x / 0.0`. -/
inductive PyErr where
  | valueError (msg : String)
  | zeroDivision
deriving DecidableEq

instance {ε α : Type} [DecidableEq ε] [DecidableEq α] : DecidableEq (Except ε α) :=
  fun x y =>
  match x, y with
  | .ok a, .ok b =>
    if h : a = b then isTrue (by rw [h]) else isFalse (fun hh => h (Except.ok.inj hh))
  | .error a, .error b =>
    if h : a = b then isTrue (by rw [h]) else isFalse (fun hh => h (Except.error.inj hh))
  | .ok _, .error _ => isFalse (fun hh => Except.noConfusion hh)
  | .error _, .ok _ => isFalse (fun hh => Except.noConfusion hh)

/-- Python's `round(q, ndigits)` on an exact value: round half to even. -/
def py_rnd (q : ℚ) : ℤ :=
  if q - ⌊q⌋ < 1 / 2 then ⌊q⌋
  else if 1 / 2 < q - ⌊q⌋ then ⌊q⌋ + 1
  else if ⌊q⌋ % 2 = 0 then ⌊q⌋ else ⌊q⌋ + 1

/-- `round(q, n)` for `n ≥ 0`: scale, round half to even, unscale. -/
def py_round (n : ℕ) (q : ℚ) : ℚ :=
  (py_rnd (q * 10 ^ n) : ℚ) / 10 ^ n

/-- Python's `x or d` for an optional float `x`: `None` and `0.0` are falsy
and give `d`; any other value is returned as is.  This is how
`compute_nsr_complete` resolves every optional commercial input. -/
def py_or (v : Option ℚ) (d : ℚ) : ℚ :=
  match v with
  | none => d
  | some x => if x = 0 then d else x

/-! ## constants.py -/

def LB_PER_TONNE : ℚ := 220462 / 100
def TROY_OZ_PER_GRAM : ℚ := 321507466 / 10 ^ 10
def DEFAULT_CU_PRICE_PER_LB : ℚ := 628 / 100
def DEFAULT_AU_PRICE_PER_OZ : ℚ := 5360
def DEFAULT_AG_PRICE_PER_OZ : ℚ := 11639 / 100
def DEFAULT_CU_PAYABILITY : ℚ := 9665 / 10000
def DEFAULT_CU_TC : ℚ := 40
def DEFAULT_CU_RC : ℚ := 19 / 10
def DEFAULT_CU_FREIGHT : ℚ := 84
def DEFAULT_CU_PENALTIES : ℚ := 0
def DEFAULT_AU_PAYABILITY : ℚ := 90 / 100
def DEFAULT_AU_RC : ℚ := 4
def DEFAULT_AG_PAYABILITY : ℚ := 90 / 100
def DEFAULT_AG_RC : ℚ := 35 / 100
def DEFAULT_CU_CONC_GRADE : ℚ := 335 / 10
def DEFAULT_AU_RECOVERY : ℚ := 60 / 100
def DEFAULT_AG_RECOVERY : ℚ := 60 / 100

/-- Modelled from the spec: `DEFAULT_MINE_COST` is imported by
`calculations.py` but absent from the provided `constants.py`; the spec
gives no numeric value ("all cost fields use defaults internally"), and no
claim settled here depends on it, so 0 is used. -/
def DEFAULT_MINE_COST : ℚ := 0

/-- Modelled from the spec: see `DEFAULT_MINE_COST`. -/
def DEFAULT_DEVELOPMENT_COST : ℚ := 0

/-- Modelled from the spec: see `DEFAULT_MINE_COST`. -/
def DEFAULT_DEVELOPMENT_METERS : ℚ := 0

/-- Modelled from the spec: see `DEFAULT_MINE_COST`. -/
def DEFAULT_HAUL_COST : ℚ := 0

/-- Modelled from the spec: see `DEFAULT_MINE_COST`. -/
def DEFAULT_PLANT_COST : ℚ := 0

/-- Modelled from the spec: see `DEFAULT_MINE_COST`. -/
def DEFAULT_GA_COST : ℚ := 0

/-- One entry of `RECOVERY_PARAMS`: recovery (%) = a · grade (%) + b,
unless `fixed` overrides the formula. -/
structure RecoveryParams where
  a : ℚ
  b : ℚ
  fixed : Option ℚ
deriving DecidableEq

/-- The area → parameters table of `constants.py`. -/
def RECOVERY_PARAMS : List (String × RecoveryParams) := [
  ("Vermelhos Sul", ⟨28286 / 10000, 92584 / 1000, none⟩),
  ("UG03", ⟨28286 / 10000, 92584 / 1000, none⟩),
  ("N5/UG04", ⟨28286 / 10000, 92584 / 1000, none⟩),
  ("N8 - UG", ⟨28286 / 10000, 92584 / 1000, none⟩),
  ("Deepening Above - 965", ⟨40851 / 10000, 90346 / 1000, some (929 / 10)⟩),
  ("Deepening Below - 965", ⟨40851 / 10000, 90346 / 1000, none⟩),
  ("MSBSUL", ⟨75986 / 10000, 85494 / 1000, some 90⟩),
  ("P1P2NE", ⟨23826 / 10000, 91442 / 1000, none⟩),
  ("P1P2W", ⟨88922 / 10000, 87637 / 1000, none⟩),
  ("BARAUNA", ⟨40851 / 10000, 90346 / 1000, none⟩),
  ("HONEYPOT", ⟨40851 / 10000, 90346 / 1000, none⟩),
  ("R22UG", ⟨30368 / 10000, 91539 / 1000, none⟩),
  ("MSBW", ⟨30368 / 10000, 91539 / 1000, none⟩),
  ("GO2040", ⟨54967 / 10000, 88751 / 1000, none⟩),
  ("PROJETO N-100", ⟨40851 / 10000, 90346 / 1000, none⟩),
  ("EAST LIMB", ⟨0, 91, some 91⟩),
  ("Surubim OP", ⟨40718 / 10000, 87885 / 1000, none⟩),
  ("C12 OP", ⟨40718 / 10000, 87885 / 1000, none⟩),
  ("C12 UG", ⟨40718 / 10000, 87885 / 1000, none⟩),
  ("N8", ⟨28286 / 10000, 92584 / 1000, none⟩),
  ("N9", ⟨28286 / 10000, 92584 / 1000, none⟩),
  ("Suçuarana OP", ⟨40718 / 10000, 87885 / 1000, none⟩),
  ("S10", ⟨40718 / 10000, 87885 / 1000, none⟩),
  ("S5", ⟨40718 / 10000, 87885 / 1000, none⟩)]

/-- `DEFAULT_RECOVERY_PARAMS`: used when the area is not in the table. -/
def DEFAULT_RECOVERY_PARAMS : RecoveryParams := ⟨3, 90, none⟩

/-! ## models.py -/

/-- `NSRInput` (pydantic model).  Required fields are plain, optional ones
`Option ℚ` (`None` when absent).  The pydantic range constraints
(`ge`/`le`/`gt`) are stated separately as `WellFormedInput`. -/
structure NSRInput where
  mine : String
  area : String
  cu_grade : ℚ
  au_grade : ℚ
  ag_grade : ℚ
  ore_tonnage : ℚ := 1000
  mine_dilution : ℚ := 14 / 100
  ore_recovery : ℚ := 98 / 100
  cu_price : Option ℚ := none
  au_price : Option ℚ := none
  ag_price : Option ℚ := none
  cu_payability : Option ℚ := none
  cu_tc : Option ℚ := none
  cu_rc : Option ℚ := none
  cu_freight : Option ℚ := none
  cu_penalties : Option ℚ := none
  au_payability : Option ℚ := none
  au_rc : Option ℚ := none
  ag_payability : Option ℚ := none
  ag_rc : Option ℚ := none
  cu_conc_grade : Option ℚ := none
  mine_cost : Option ℚ := none
  development_cost : Option ℚ := none
  development_meters : Option ℚ := none
  haul_cost : Option ℚ := none
  plant_cost : Option ℚ := none
  ga_cost : Option ℚ := none
deriving DecidableEq

/-- `EBITDAResult` (already rounded, as built by `compute_ebitda`). -/
structure EBITDAResult where
  revenue : ℚ
  mine_cost_total : ℚ
  development_cost_total : ℚ
  haul_cost_total : ℚ
  plant_cost_total : ℚ
  ga_cost_total : ℚ
  total_costs : ℚ
  ebitda : ℚ
  ebitda_per_tonne : ℚ
  ebitda_margin : ℚ
deriving DecidableEq

/-- A value of the heterogeneous `inputs_used` dict (`Dict[str, Any]`):
a string, a float, or an optional float echoed raw. -/
inductive PyVal where
  | str (s : String)
  | rat (q : ℚ)
  | orat (q : Option ℚ)
deriving DecidableEq

/-- `NSRResult` (rounded outputs, as returned by `compute_nsr_complete`). -/
structure NSRResult where
  conc_price_cu : ℚ
  conc_price_au : ℚ
  conc_price_ag : ℚ
  conc_price_total : ℚ
  nsr_cu : ℚ
  nsr_au : ℚ
  nsr_ag : ℚ
  nsr_mineral_resources : ℚ
  nsr_processing : ℚ
  nsr_mine : ℚ
  nsr_per_tonne : ℚ
  dilution_loss : ℚ
  recovery_loss : ℚ
  conc_ratio : ℚ
  cu_recovery : ℚ
  au_recovery : ℚ
  ag_recovery : ℚ
  revenue_total : ℚ
  ebitda : Option EBITDAResult
  currency : String
  ore_tonnage : ℚ
  formula_applied : String
  inputs_used : List (String × PyVal)
deriving DecidableEq

/-! ## calculations.py -/

/-- `compute_cu_recovery`: linear-formula-or-fixed-override recovery,
returned as a decimal capped at 1.0. -/
def compute_cu_recovery (cu_grade_pct : ℚ) (area : String) : ℚ :=
  let params := (RECOVERY_PARAMS.lookup area).getD DEFAULT_RECOVERY_PARAMS
  match params.fixed with
  | some f => min (f / 100) 1
  | none => min ((params.a * cu_grade_pct + params.b) / 100) 1

/-- `compute_conc_ratio`: `(cu_grade/100 · cu_recovery) / (cu_conc_grade/100)`.
The Python body is a bare division: a zero concentrate grade raises
`ZeroDivisionError` (there is no guard in the source). -/
def compute_conc_ratio (cu_grade_pct cu_recovery cu_conc_grade_pct : ℚ) :
    Except PyErr ℚ :=
  if cu_conc_grade_pct / 100 = 0 then .error .zeroDivision
  else .ok (cu_grade_pct / 100 * cu_recovery / (cu_conc_grade_pct / 100))

/-- `compute_conc_price_cu`. -/
def compute_conc_price_cu (cu_price_per_lb cu_conc_grade_pct payability tc rc
    freight penalties : ℚ) : ℚ :=
  let cu_grade_fraction := cu_conc_grade_pct / 100
  let gross_revenue := cu_price_per_lb * cu_grade_fraction * payability * LB_PER_TONNE
  let rc_total := rc * cu_grade_fraction * LB_PER_TONNE
  let total_deductions := tc + rc_total + freight + penalties
  gross_revenue - total_deductions

/-- `compute_conc_price_au`. -/
def compute_conc_price_au (au_price_per_oz au_grade_in_conc_gpt payability rc : ℚ) : ℚ :=
  let au_oz_per_tonne_conc := au_grade_in_conc_gpt * TROY_OZ_PER_GRAM
  au_price_per_oz * au_oz_per_tonne_conc * payability - rc * au_oz_per_tonne_conc

/-- `compute_conc_price_ag`. -/
def compute_conc_price_ag (ag_price_per_oz ag_grade_in_conc_gpt payability rc : ℚ) : ℚ :=
  let ag_oz_per_tonne_conc := ag_grade_in_conc_gpt * TROY_OZ_PER_GRAM
  ag_price_per_oz * ag_oz_per_tonne_conc * payability - rc * ag_oz_per_tonne_conc

/-- `compute_ebitda` (output fields rounded to 2 decimals, as in the source). -/
def compute_ebitda (revenue ore_tonnage mine_cost development_cost development_meters
    haul_cost plant_cost ga_cost : ℚ) : EBITDAResult :=
  let mine_cost_total := mine_cost * ore_tonnage
  let development_cost_total := development_cost * development_meters
  let haul_cost_total := haul_cost * ore_tonnage
  let plant_cost_total := plant_cost * ore_tonnage
  let ga_cost_total := ga_cost * ore_tonnage
  let total_costs := mine_cost_total + development_cost_total + haul_cost_total
    + plant_cost_total + ga_cost_total
  let e := revenue - total_costs
  let ebitda_per_tonne := if 0 < ore_tonnage then e / ore_tonnage else 0
  let ebitda_margin := if 0 < revenue then e / revenue * 100 else 0
  { revenue := py_round 2 revenue
    mine_cost_total := py_round 2 mine_cost_total
    development_cost_total := py_round 2 development_cost_total
    haul_cost_total := py_round 2 haul_cost_total
    plant_cost_total := py_round 2 plant_cost_total
    ga_cost_total := py_round 2 ga_cost_total
    total_costs := py_round 2 total_costs
    ebitda := py_round 2 e
    ebitda_per_tonne := py_round 2 ebitda_per_tonne
    ebitda_margin := py_round 2 ebitda_margin }

/-- The effective (resolved) optional commercial inputs, lines 363-380 of
`calculations.py`: `inputs.x or DEFAULT_X` for each. -/
structure Resolved where
  cu_price : ℚ
  au_price : ℚ
  ag_price : ℚ
  cu_payability : ℚ
  cu_tc : ℚ
  cu_rc : ℚ
  cu_freight : ℚ
  cu_penalties : ℚ
  au_payability : ℚ
  au_rc : ℚ
  ag_payability : ℚ
  ag_rc : ℚ
  cu_conc_grade : ℚ
deriving DecidableEq

/-- Lines 363-380 of `compute_nsr_complete`: resolve optionals with `or`. -/
def resolveInputs (inputs : NSRInput) : Resolved :=
  { cu_price := py_or inputs.cu_price DEFAULT_CU_PRICE_PER_LB
    au_price := py_or inputs.au_price DEFAULT_AU_PRICE_PER_OZ
    ag_price := py_or inputs.ag_price DEFAULT_AG_PRICE_PER_OZ
    cu_payability := py_or inputs.cu_payability DEFAULT_CU_PAYABILITY
    cu_tc := py_or inputs.cu_tc DEFAULT_CU_TC
    cu_rc := py_or inputs.cu_rc DEFAULT_CU_RC
    cu_freight := py_or inputs.cu_freight DEFAULT_CU_FREIGHT
    cu_penalties := py_or inputs.cu_penalties DEFAULT_CU_PENALTIES
    au_payability := py_or inputs.au_payability DEFAULT_AU_PAYABILITY
    au_rc := py_or inputs.au_rc DEFAULT_AU_RC
    ag_payability := py_or inputs.ag_payability DEFAULT_AG_PAYABILITY
    ag_rc := py_or inputs.ag_rc DEFAULT_AG_RC
    cu_conc_grade := py_or inputs.cu_conc_grade DEFAULT_CU_CONC_GRADE }

/-- All locals of `compute_nsr_complete` before the final rounding
(lines 382-496), in source order. -/
structure NSRCore where
  resolved : Resolved
  cu_recovery : ℚ
  au_recovery : ℚ
  ag_recovery : ℚ
  conc_ratio : ℚ
  au_in_conc : ℚ
  ag_in_conc : ℚ
  conc_price_cu : ℚ
  conc_price_au : ℚ
  conc_price_ag : ℚ
  conc_price_total : ℚ
  nsr_cu : ℚ
  nsr_au : ℚ
  nsr_ag : ℚ
  nsr_total : ℚ
  nsr_per_tonne : ℚ
  gross_rev_cu : ℚ
  gross_rev_au : ℚ
  gross_rev_ag : ℚ
  selling_costs_per_tonne : ℚ
  nsr_processing : ℚ
  conc_ratio_100 : ℚ
  recovery_loss : ℚ
  nsr_mine : ℚ
  mine_factor : ℚ
  nsr_mineral_resources : ℚ
  dilution_loss : ℚ
  conc_tonnage : ℚ
  revenue_total : ℚ
  ebitda : Option EBITDAResult
  inputs_used : List (String × PyVal)
deriving DecidableEq

/-- Lines 468-496 of `compute_nsr_complete`: the `inputs_used` dict, in
source order (the commercial fields resolved, the cost fields echoed raw;
`cu_penalties` does not appear in the source dict). -/
def mk_inputs_used (inputs : NSRInput) (r : Resolved) : List (String × PyVal) := [
  ("mine", .str inputs.mine),
  ("area", .str inputs.area),
  ("cu_grade", .rat inputs.cu_grade),
  ("au_grade", .rat inputs.au_grade),
  ("ag_grade", .rat inputs.ag_grade),
  ("ore_tonnage", .rat inputs.ore_tonnage),
  ("mine_dilution", .rat inputs.mine_dilution),
  ("ore_recovery", .rat inputs.ore_recovery),
  ("cu_price", .rat r.cu_price),
  ("au_price", .rat r.au_price),
  ("ag_price", .rat r.ag_price),
  ("cu_payability", .rat r.cu_payability),
  ("cu_tc", .rat r.cu_tc),
  ("cu_rc", .rat r.cu_rc),
  ("cu_freight", .rat r.cu_freight),
  ("au_payability", .rat r.au_payability),
  ("au_rc", .rat r.au_rc),
  ("ag_payability", .rat r.ag_payability),
  ("ag_rc", .rat r.ag_rc),
  ("cu_conc_grade", .rat r.cu_conc_grade),
  ("mine_cost", .orat inputs.mine_cost),
  ("development_cost", .orat inputs.development_cost),
  ("development_meters", .orat inputs.development_meters),
  ("haul_cost", .orat inputs.haul_cost),
  ("plant_cost", .orat inputs.plant_cost),
  ("ga_cost", .orat inputs.ga_cost)]

/-- The straight-line body of `compute_nsr_complete` after the
`compute_conc_ratio` call (the one sub-call that can raise), before the
final rounding: a literal transcription of lines 382-496 of
`calculations.py`, parametrised by the computed `conc_ratio`. -/
def coreOf (inputs : NSRInput) (conc_ratio : ℚ) : NSRCore :=
    let r := resolveInputs inputs
    let cu_recovery := compute_cu_recovery inputs.cu_grade inputs.area
    let au_recovery := DEFAULT_AU_RECOVERY
    let ag_recovery := DEFAULT_AG_RECOVERY
    let au_in_conc := if 0 < conc_ratio then inputs.au_grade * au_recovery / conc_ratio else 0
    let ag_in_conc := if 0 < conc_ratio then inputs.ag_grade * ag_recovery / conc_ratio else 0
    let conc_price_cu := compute_conc_price_cu r.cu_price r.cu_conc_grade r.cu_payability
      r.cu_tc r.cu_rc r.cu_freight r.cu_penalties
    let conc_price_au := compute_conc_price_au r.au_price au_in_conc r.au_payability r.au_rc
    let conc_price_ag := compute_conc_price_ag r.ag_price ag_in_conc r.ag_payability r.ag_rc
    let conc_price_total := conc_price_cu + conc_price_au + conc_price_ag
    let nsr_cu := conc_price_cu * conc_ratio
    let nsr_au := conc_price_au * conc_ratio
    let nsr_ag := conc_price_ag * conc_ratio
    let nsr_total := nsr_cu + nsr_au + nsr_ag
    let nsr_per_tonne := nsr_total
    let gross_rev_cu := r.cu_price * (r.cu_conc_grade / 100) * r.cu_payability * LB_PER_TONNE
    let gross_rev_au := if 0 < conc_ratio
      then r.au_price * au_in_conc * TROY_OZ_PER_GRAM * r.au_payability else 0
    let gross_rev_ag := if 0 < conc_ratio
      then r.ag_price * ag_in_conc * TROY_OZ_PER_GRAM * r.ag_payability else 0
    let selling_costs_per_tonne :=
      (gross_rev_cu + gross_rev_au + gross_rev_ag - conc_price_total) * conc_ratio
    let nsr_processing := nsr_total + selling_costs_per_tonne
    let conc_ratio_100 := if 0 < r.cu_conc_grade
      then inputs.cu_grade / 100 / (r.cu_conc_grade / 100) else 0
    let recovery_loss := gross_rev_cu * conc_ratio_100 * (1 - cu_recovery)
    let nsr_mine := nsr_processing + recovery_loss
    let mine_factor := (1 - inputs.mine_dilution) * inputs.ore_recovery
    let nsr_mineral_resources := if 0 < mine_factor then nsr_mine / mine_factor else nsr_mine
    let dilution_loss := nsr_mineral_resources - nsr_mine
    let conc_tonnage := inputs.ore_tonnage * conc_ratio
    let revenue_total := conc_price_total * conc_tonnage
    let has_costs := inputs.mine_cost.isSome || inputs.development_cost.isSome
      || inputs.haul_cost.isSome || inputs.plant_cost.isSome || inputs.ga_cost.isSome
    let ebitda := if has_costs then
        some (compute_ebitda revenue_total inputs.ore_tonnage
          (inputs.mine_cost.getD DEFAULT_MINE_COST)
          (inputs.development_cost.getD DEFAULT_DEVELOPMENT_COST)
          (inputs.development_meters.getD DEFAULT_DEVELOPMENT_METERS)
          (inputs.haul_cost.getD DEFAULT_HAUL_COST)
          (inputs.plant_cost.getD DEFAULT_PLANT_COST)
          (inputs.ga_cost.getD DEFAULT_GA_COST))
      else none
    id
      { resolved := r
        cu_recovery := cu_recovery
        au_recovery := au_recovery
        ag_recovery := ag_recovery
        conc_ratio := conc_ratio
        au_in_conc := au_in_conc
        ag_in_conc := ag_in_conc
        conc_price_cu := conc_price_cu
        conc_price_au := conc_price_au
        conc_price_ag := conc_price_ag
        conc_price_total := conc_price_total
        nsr_cu := nsr_cu
        nsr_au := nsr_au
        nsr_ag := nsr_ag
        nsr_total := nsr_total
        nsr_per_tonne := nsr_per_tonne
        gross_rev_cu := gross_rev_cu
        gross_rev_au := gross_rev_au
        gross_rev_ag := gross_rev_ag
        selling_costs_per_tonne := selling_costs_per_tonne
        nsr_processing := nsr_processing
        conc_ratio_100 := conc_ratio_100
        recovery_loss := recovery_loss
        nsr_mine := nsr_mine
        mine_factor := mine_factor
        nsr_mineral_resources := nsr_mineral_resources
        dilution_loss := dilution_loss
        conc_tonnage := conc_tonnage
        revenue_total := revenue_total
        ebitda := ebitda
        inputs_used := mk_inputs_used inputs r }

/-- Lines 363-496 of `compute_nsr_complete`: resolve the optional inputs,
compute the recovery, run `compute_conc_ratio` (propagating its
`ZeroDivisionError`), then the rest of the pipeline (`coreOf`). -/
def compute_nsr_core (inputs : NSRInput) : Except PyErr NSRCore :=
  let r := resolveInputs inputs
  let cu_recovery := compute_cu_recovery inputs.cu_grade inputs.area
  match compute_conc_ratio inputs.cu_grade cu_recovery r.cu_conc_grade with
  | .error e => .error e
  | .ok conc_ratio => .ok (coreOf inputs conc_ratio)

/-- Lines 498-530 of `compute_nsr_complete`: round the core values into
the returned `NSRResult`. -/
def compute_nsr_complete (inputs : NSRInput) : Except PyErr NSRResult :=
  (compute_nsr_core inputs).map fun c =>
    { conc_price_cu := py_round 2 c.conc_price_cu
      conc_price_au := py_round 2 c.conc_price_au
      conc_price_ag := py_round 2 c.conc_price_ag
      conc_price_total := py_round 2 c.conc_price_total
      nsr_cu := py_round 2 c.nsr_cu
      nsr_au := py_round 2 c.nsr_au
      nsr_ag := py_round 2 c.nsr_ag
      nsr_mineral_resources := py_round 2 c.nsr_mineral_resources
      nsr_processing := py_round 2 c.nsr_processing
      nsr_mine := py_round 2 c.nsr_mine
      nsr_per_tonne := py_round 2 c.nsr_per_tonne
      dilution_loss := py_round 2 c.dilution_loss
      recovery_loss := py_round 2 c.recovery_loss
      conc_ratio := py_round 6 c.conc_ratio
      cu_recovery := py_round 4 c.cu_recovery
      au_recovery := py_round 4 c.au_recovery
      ag_recovery := py_round 4 c.ag_recovery
      revenue_total := py_round 2 c.revenue_total
      ebitda := c.ebitda
      currency := "USD"
      ore_tonnage := inputs.ore_tonnage
      formula_applied := "See NSR_REQUIREMENTS.md"
      inputs_used := c.inputs_used }

/-! ## goal_seek.py -/

/-- `GoalSeekError`, plus engine exceptions propagating through the solver. -/
inductive GSErr where
  | goalSeek (msg : String)
  | py (e : PyErr)
deriving DecidableEq

/-- `GOAL_SEEK_VARIABLES`: var name → (direction, lower bound, upper
bound, unit). -/
def GOAL_SEEK_VARIABLES : List (String × String × ℚ × ℚ × String) := [
  ("cu_price", ("revenue", 1 / 100, 50, "$/lb")),
  ("au_price", ("revenue", 1, 50000, "$/oz")),
  ("ag_price", ("revenue", 1 / 100, 5000, "$/oz")),
  ("cu_grade", ("revenue", 1 / 1000, 20, "%")),
  ("au_grade", ("revenue", 1 / 1000, 100, "g/t")),
  ("ag_grade", ("revenue", 1 / 1000, 500, "g/t")),
  ("cu_tc", ("cost", 0, 1000, "$/dmt")),
  ("cu_rc", ("cost", 0, 50, "$/lb")),
  ("cu_freight", ("cost", 0, 500, "$/dmt")),
  ("cu_penalties", ("cost", 0, 500, "$/dmt")),
  ("mine_dilution", ("cost", 0, 99 / 100, "decimal"))]

/-- `GoalSeekResult` (dataclass). -/
structure GoalSeekResult where
  target_variable : String
  target_variable_unit : String
  target_nsr : ℚ
  threshold_value : ℚ
  current_value : ℚ
  current_nsr : ℚ
  delta_percent : ℚ
  is_currently_viable : Bool
  converged : Bool
  iterations : ℕ
  tolerance_achieved : ℚ
  bound_hit : String
deriving DecidableEq

/-- `_get_variable_value`: the field value when present, else the default
constant.  `goal_seek` only calls this after checking membership in
`GOAL_SEEK_VARIABLES`, so only the registry names are spelt out; for them
Python's `getattr` + defaults dict resolves exactly as below (an optional
field explicitly set to `0.0` is *used*, since the Python code tests
`is None`, not truthiness). -/
def _get_variable_value (inputs : NSRInput) (var : String) : Except GSErr ℚ :=
  match var with
  | "cu_price" => .ok (inputs.cu_price.getD DEFAULT_CU_PRICE_PER_LB)
  | "au_price" => .ok (inputs.au_price.getD DEFAULT_AU_PRICE_PER_OZ)
  | "ag_price" => .ok (inputs.ag_price.getD DEFAULT_AG_PRICE_PER_OZ)
  | "cu_grade" => .ok inputs.cu_grade
  | "au_grade" => .ok inputs.au_grade
  | "ag_grade" => .ok inputs.ag_grade
  | "cu_tc" => .ok (inputs.cu_tc.getD DEFAULT_CU_TC)
  | "cu_rc" => .ok (inputs.cu_rc.getD DEFAULT_CU_RC)
  | "cu_freight" => .ok (inputs.cu_freight.getD DEFAULT_CU_FREIGHT)
  | "cu_penalties" => .ok (inputs.cu_penalties.getD DEFAULT_CU_PENALTIES)
  | "mine_dilution" => .ok inputs.mine_dilution
  | _ => .error (.goalSeek ("Cannot determine current value for var " ++ var))

/-- `_set_variable_value`: a copy of the input with one field replaced
(`model_dump` + reconstruct).  Only the registry names can reach this. -/
def _set_variable_value (inputs : NSRInput) (var : String) (value : ℚ) : NSRInput :=
  match var with
  | "cu_price" => { inputs with cu_price := some value }
  | "au_price" => { inputs with au_price := some value }
  | "ag_price" => { inputs with ag_price := some value }
  | "cu_grade" => { inputs with cu_grade := value }
  | "au_grade" => { inputs with au_grade := value }
  | "ag_grade" => { inputs with ag_grade := value }
  | "cu_tc" => { inputs with cu_tc := some value }
  | "cu_rc" => { inputs with cu_rc := some value }
  | "cu_freight" => { inputs with cu_freight := some value }
  | "cu_penalties" => { inputs with cu_penalties := some value }
  | "mine_dilution" => { inputs with mine_dilution := value }
  | _ => inputs

/-- `_compute_nsr_for_value`: the (rounded) `nsr_per_tonne` of the pipeline
run with one var overridden. -/
def _compute_nsr_for_value (base_input : NSRInput) (var : String) (value : ℚ) :
    Except PyErr ℚ :=
  (compute_nsr_complete (_set_variable_value base_input var value)).map
    (fun r => r.nsr_per_tonne)

/-- The `for i in range(max_iterations)` bisection loop of `goal_seek`:
carries the interval `[a, b]`, `fa = f(a)` and the `iterations` counter,
and stops early when `|f(mid)| ≤ tolerance` (returning the interval as it
was at the break, so that the final midpoint is the evaluated `mid`). -/
def bisect_loop (base_input : NSRInput) (var : String) (target_nsr tolerance : ℚ) :
    ℕ → ℚ → ℚ → ℚ → ℕ → Except PyErr (ℚ × ℚ × ℕ)
  | 0, a, b, _, iters => .ok (a, b, iters)
  | fuel + 1, a, b, fa, iters =>
    let mid := (a + b) / 2
    match _compute_nsr_for_value base_input var mid with
    | .error e => .error e
    | .ok nsr_mid =>
      let f_mid := nsr_mid - target_nsr
      if |f_mid| ≤ tolerance then .ok (a, b, iters + 1)
      else if fa * f_mid < 0 then
        bisect_loop base_input var target_nsr tolerance fuel a mid fa (iters + 1)
      else
        bisect_loop base_input var target_nsr tolerance fuel mid b f_mid (iters + 1)

/-- `goal_seek` (defaults in the source: `target_nsr=0.0`,
`tolerance=0.01`, `max_iterations=50`). -/
def goal_seek (base_input : NSRInput) (target_variable : String)
    (target_nsr tolerance : ℚ) (max_iterations : ℕ) : Except GSErr GoalSeekResult :=
  match GOAL_SEEK_VARIABLES.lookup target_variable with
  | none => .error (.goalSeek ("Unsupported var: " ++ target_variable))
  | some (_dir, lower_bound, upper_bound, unit) =>
    match _get_variable_value base_input target_variable with
    | .error e => .error e
    | .ok current_value =>
      match _compute_nsr_for_value base_input target_variable current_value with
      | .error e => .error (.py e)
      | .ok current_nsr =>
        let is_currently_viable : Bool := decide (current_nsr ≥ target_nsr)
        if |current_nsr - target_nsr| ≤ tolerance then
          .ok
            { target_variable := target_variable
              target_variable_unit := unit
              target_nsr := target_nsr
              threshold_value := py_round 6 current_value
              current_value := current_value
              current_nsr := py_round 2 current_nsr
              delta_percent := 0
              is_currently_viable := is_currently_viable
              converged := true
              iterations := 0
              tolerance_achieved := |current_nsr - target_nsr|
              bound_hit := "" }
        else
          match _compute_nsr_for_value base_input target_variable lower_bound with
          | .error e => .error (.py e)
          | .ok nsr_at_lower =>
            match _compute_nsr_for_value base_input target_variable upper_bound with
            | .error e => .error (.py e)
            | .ok nsr_at_upper =>
              let f_lower := nsr_at_lower - target_nsr
              let f_upper := nsr_at_upper - target_nsr
              if 0 < f_lower * f_upper then
                let twn : ℚ × ℚ × String :=
                  if |f_lower| < |f_upper| then (lower_bound, nsr_at_lower, "lower")
                  else (upper_bound, nsr_at_upper, "upper")
                let delta_pct := if current_value ≠ 0
                  then (twn.1 - current_value) / current_value * 100 else 0
                .ok
                  { target_variable := target_variable
                    target_variable_unit := unit
                    target_nsr := target_nsr
                    threshold_value := py_round 6 twn.1
                    current_value := current_value
                    current_nsr := py_round 2 current_nsr
                    delta_percent := py_round 2 delta_pct
                    is_currently_viable := is_currently_viable
                    converged := false
                    iterations := 0
                    tolerance_achieved := |twn.2.1 - target_nsr|
                    bound_hit := twn.2.2 }
              else
                match bisect_loop base_input target_variable target_nsr tolerance
                  max_iterations lower_bound upper_bound f_lower 0 with
                | .error e => .error (.py e)
                | .ok (a, b, iterations) =>
                  let threshold := (a + b) / 2
                  match _compute_nsr_for_value base_input target_variable threshold with
                  | .error e => .error (.py e)
                  | .ok nsr_at_threshold =>
                    let delta_pct := if current_value ≠ 0
                      then (threshold - current_value) / current_value * 100 else 0
                    .ok
                      { target_variable := target_variable
                        target_variable_unit := unit
                        target_nsr := target_nsr
                        threshold_value := py_round 6 threshold
                        current_value := current_value
                        current_nsr := py_round 2 current_nsr
                        delta_percent := py_round 2 delta_pct
                        is_currently_viable := is_currently_viable
                        converged := true
                        iterations := iterations
                        tolerance_achieved := py_round 4 |nsr_at_threshold - target_nsr|
                        bound_hit := "" }

/-! ## Input invariant and auxiliary predicates -/

/-- A predicate on an optional field: holds of the value when the field is
present (how pydantic's `ge`/`le`/`gt` constraints read on `Optional`). -/
def optionAll (P : ℚ → Prop) : Option ℚ → Prop
  | none => True
  | some v => P v

instance (P : ℚ → Prop) [DecidablePred P] : (o : Option ℚ) → Decidable (optionAll P o)
  | none => isTrue trivial
  | some v => inferInstanceAs (Decidable (P v))

/-- The input invariant: the pydantic range constraints of `NSRInput`
together with the spec's §3 invariant (grades non-negative, fraction-typed
fields in `[0,1]`, concentrate grade in `(0,100]` when supplied). -/
def WellFormedInput (I : NSRInput) : Prop :=
  0 ≤ I.cu_grade ∧ I.cu_grade ≤ 100 ∧ 0 ≤ I.au_grade ∧ 0 ≤ I.ag_grade ∧
  0 < I.ore_tonnage ∧ 0 ≤ I.mine_dilution ∧ I.mine_dilution ≤ 1 ∧
  0 ≤ I.ore_recovery ∧ I.ore_recovery ≤ 1 ∧
  optionAll (fun v => 0 ≤ v ∧ v ≤ 1) I.cu_payability ∧
  optionAll (fun v => 0 ≤ v ∧ v ≤ 1) I.au_payability ∧
  optionAll (fun v => 0 ≤ v ∧ v ≤ 1) I.ag_payability ∧
  optionAll (fun v => 0 < v ∧ v ≤ 100) I.cu_conc_grade ∧
  optionAll (fun v => 0 ≤ v) I.mine_cost ∧
  optionAll (fun v => 0 ≤ v) I.development_cost ∧
  optionAll (fun v => 0 ≤ v) I.development_meters ∧
  optionAll (fun v => 0 ≤ v) I.haul_cost ∧
  optionAll (fun v => 0 ≤ v) I.plant_cost ∧
  optionAll (fun v => 0 ≤ v) I.ga_cost

instance (I : NSRInput) : Decidable (WellFormedInput I) := by
  unfold WellFormedInput
  infer_instance

/-- `q` scaled to cents is not an exact half: rounding `q` to 2 decimals
moves it by strictly less than half a cent.  Values on a half-cent tie
(such as the exactly representable 1/8 = 0.125) round half-to-even and
can lose a full half cent. -/
def no_tie (q : ℚ) : Prop := Int.fract (q * 100) ≠ 1 / 2

instance (q : ℚ) : Decidable (no_tie q) :=
  inferInstanceAs (Decidable ¬(Int.fract (q * 100) = 1 / 2))

/-- All eight 2-decimal-rounded money outputs of the pipeline are free of
exact rounding ties (trivially true when the pipeline raises). -/
def tie_free (I : NSRInput) : Bool :=
  match compute_nsr_core I with
  | .ok c => decide (no_tie c.conc_price_cu ∧ no_tie c.conc_price_au ∧
      no_tie c.conc_price_ag ∧ no_tie c.conc_price_total ∧ no_tie c.nsr_cu ∧
      no_tie c.nsr_au ∧ no_tie c.nsr_ag ∧ no_tie c.nsr_per_tonne)
  | .error _ => true

/-- Whether an engine call failed with the spec's "InvalidParameter", i.e.
a Python `ValueError` as raised by the explicit precondition guards
(`compute_payable_metal`'s checks are of this kind). -/
def is_invalid_parameter : Except PyErr ℚ → Bool
  | .error (.valueError _) => true
  | _ => false

/-- Whether a recovery-table entry is well behaved: a positive fixed
override, or a non-negative slope with positive intercept.  Holds of every
entry of `RECOVERY_PARAMS` and of the default. -/
def good_params (p : RecoveryParams) : Bool :=
  match p.fixed with
  | some f => decide (0 < f)
  | none => decide (0 ≤ p.a ∧ 0 < p.b)

/-! ## Concrete inputs used by witnesses and counterexamples -/

/-- The golden scenario of the spec (§8.9): Vermelhos Sul, 1.4% Cu. -/
def golden : NSRInput :=
  { mine := "Vermelhos UG", area := "Vermelhos Sul", cu_grade := 7 / 5,
    au_grade := 23 / 100, ag_grade := 233 / 100, ore_tonnage := 20000 }

/-- A well-formed input with an extreme copper price: the NSR is so steep
in `cu_grade` that 50 bisection steps cannot reach the default tolerance. -/
def steep_input : NSRInput :=
  { mine := "m", area := "Z", cu_grade := 1, au_grade := 0, ag_grade := 0,
    cu_price := some (10 ^ 13) }

/-- The NSR value of `steep_input` at `cu_grade = 0.001 + 19.999/3`
(rounded to 2 decimals): a goal-seek target whose root keeps its distance
from every bisection midpoint. -/
def steep_target : ℚ := 142065220434836271 / 100

/-- `golden` with the treatment charge explicitly set to `0.0`. -/
def zero_tc_input : NSRInput := { golden with cu_tc := some 0 }

/-- `golden` with the treatment charge explicitly set to `5.0`. -/
def five_tc_input : NSRInput := { golden with cu_tc := some 5 }

/-- `golden` with penalties explicitly supplied. -/
def penalties_input : NSRInput := { golden with cu_penalties := some 7 }

/-- `golden` with only `development_meters` supplied among the
operational-cost fields. -/
def dev_meters_input : NSRInput := { golden with development_meters := some 5 }

/-- A well-formed input whose three concentrate-price contributions are
each exactly 1/8 $/t: with concentrate grade 25 the ratio at area "Z"
(default coefficients, grade 1) is 93/2500; gold/silver grade 31/500
makes the metal-in-concentrate exactly 1 g/t, and the prices and charges
are chosen so each metal nets 0.125 — a half-cent rounding tie.  The
parts round to 0.12 each while their sum 0.375 rounds to 0.38. -/
def tie_input : NSRInput :=
  { mine := "m", area := "Z", cu_grade := 1, au_grade := 31 / 500,
    ag_grade := 31 / 500, cu_price := some 10,
    au_price := some (1571507466 / 160753733),
    ag_price := some (1571507466 / 160753733),
    cu_payability := some (1 / 2), cu_tc := some (440699 / 200),
    cu_rc := some 1, cu_freight := some 1,
    au_payability := some (1 / 2), au_rc := some 1,
    ag_payability := some (1 / 2), ag_rc := some 1,
    cu_conc_grade := some 25 }

/-! ## Helper lemmas -/

theorem py_or_ne_zero (v : Option ℚ) (d : ℚ) (hd : d ≠ 0) : py_or v d ≠ 0 := by
  cases v with
  | none => exact hd
  | some x =>
    by_cases hx : x = 0 <;> simp [py_or, hx, hd]

theorem resolved_conc_grade_ne_zero (I : NSRInput) :
    (resolveInputs I).cu_conc_grade ≠ 0 :=
  py_or_ne_zero I.cu_conc_grade DEFAULT_CU_CONC_GRADE
    (by norm_num [DEFAULT_CU_CONC_GRADE])

theorem compute_conc_ratio_ok (g rec c : ℚ) (hc : c ≠ 0) :
    compute_conc_ratio g rec c = .ok (g / 100 * rec / (c / 100)) := by
  unfold compute_conc_ratio
  rw [if_neg]
  simp only [div_eq_zero_iff, not_or]
  exact ⟨hc, by norm_num⟩

/-- The pipeline never raises: the `or`-style resolution of
`cu_conc_grade` replaces both `None` and `0.0` by the nonzero default, so
the one risky division always has a nonzero divisor. -/
theorem core_ok (I : NSRInput) :
    compute_nsr_core I =
      .ok (coreOf I (I.cu_grade / 100 * compute_cu_recovery I.cu_grade I.area /
        ((resolveInputs I).cu_conc_grade / 100))) := by
  show (match compute_conc_ratio I.cu_grade (compute_cu_recovery I.cu_grade I.area)
      (resolveInputs I).cu_conc_grade with
    | Except.error e => Except.error e
    | Except.ok conc_ratio => Except.ok (coreOf I conc_ratio)) = _
  rw [compute_conc_ratio_ok _ _ _ (resolved_conc_grade_ne_zero I)]

theorem complete_ok (I : NSRInput) :
    ∃ r, compute_nsr_complete I = .ok r := by
  unfold compute_nsr_complete
  rw [core_ok]
  exact ⟨_, rfl⟩

theorem nsr_for_value_ok (base : NSRInput) (var : String) (x : ℚ) :
    ∃ v, _compute_nsr_for_value base var x = .ok v := by
  unfold _compute_nsr_for_value
  obtain ⟨r, hr⟩ := complete_ok (_set_variable_value base var x)
  exact ⟨r.nsr_per_tonne, by rw [hr]; rfl⟩

theorem resolved_conc_grade_pos (I : NSRInput)
    (h : optionAll (fun v => 0 < v ∧ v ≤ 100) I.cu_conc_grade) :
    0 < (resolveInputs I).cu_conc_grade := by
  show 0 < py_or I.cu_conc_grade DEFAULT_CU_CONC_GRADE
  cases hv : I.cu_conc_grade with
  | none => norm_num [py_or, DEFAULT_CU_CONC_GRADE]
  | some v =>
    rw [hv] at h
    by_cases hz : v = 0
    · norm_num [py_or, hz, DEFAULT_CU_CONC_GRADE]
    · simpa [py_or, hz] using h.1

/-- C1: for every well-formed `NSRInput` the unrounded cascade of
`compute_nsr_complete` satisfies exactly the stated formulas:
`selling_costs_per_tonne = (Σ gross_metal − conc_price_total) · conc_ratio`;
`nsr_processing = nsr_per_tonne + selling_costs_per_tonne`;
`recovery_loss = gross_rev_cu · (cu_grade / cu_conc_grade) · (1 − cu_recovery)`;
`nsr_mine = nsr_processing + recovery_loss`;
`nsr_mineral_resources = nsr_mine / ((1 − mine_dilution) · ore_recovery)`
(`nsr_mine` unchanged when that factor is 0); and
`dilution_loss = nsr_mineral_resources − nsr_mine`. -/
theorem C1_cascade_decomposition (I : NSRInput) (h : WellFormedInput I) :
    (compute_nsr_core I).map (fun c => decide (
      c.selling_costs_per_tonne =
        (c.gross_rev_cu + c.gross_rev_au + c.gross_rev_ag - c.conc_price_total) *
          c.conc_ratio ∧
      c.nsr_processing = c.nsr_per_tonne + c.selling_costs_per_tonne ∧
      c.recovery_loss = c.gross_rev_cu *
        (I.cu_grade / py_or I.cu_conc_grade DEFAULT_CU_CONC_GRADE) *
        (1 - c.cu_recovery) ∧
      c.nsr_mine = c.nsr_processing + c.recovery_loss ∧
      c.nsr_mineral_resources = (if (1 - I.mine_dilution) * I.ore_recovery = 0
        then c.nsr_mine else c.nsr_mine / ((1 - I.mine_dilution) * I.ore_recovery)) ∧
      c.dilution_loss = c.nsr_mineral_resources - c.nsr_mine)) = .ok true := by
  obtain ⟨-, -, -, -, -, -, hd1, hr0, -, -, -, -, hccg, -⟩ := h
  have hpos : (0:ℚ) < py_or I.cu_conc_grade DEFAULT_CU_CONC_GRADE :=
    resolved_conc_grade_pos I hccg
  rw [core_ok]
  simp only [Except.map]
  refine congrArg Except.ok ?_
  rw [decide_eq_true_eq]
  simp only [coreOf, resolveInputs, id_eq]
  refine ⟨trivial, trivial, ?_, trivial, ?_, trivial⟩
  · rw [if_pos hpos, div_div_div_cancel_right₀]
    norm_num
  · have hmf : 0 ≤ (1 - I.mine_dilution) * I.ore_recovery :=
      mul_nonneg (sub_nonneg.mpr hd1) hr0
    rcases eq_or_lt_of_le hmf with hz | hp
    · rw [if_neg (by rw [← hz]; exact lt_irrefl 0), if_pos hz.symm]
    · rw [if_pos hp, if_neg (ne_of_gt hp)]

/-- Witness for C1 at the golden scenario input. -/
theorem C1_witness :
    WellFormedInput golden ∧
      (compute_nsr_core golden).map (fun c => decide (
        c.selling_costs_per_tonne =
          (c.gross_rev_cu + c.gross_rev_au + c.gross_rev_ag - c.conc_price_total) *
            c.conc_ratio ∧
        c.nsr_processing = c.nsr_per_tonne + c.selling_costs_per_tonne ∧
        c.recovery_loss = c.gross_rev_cu *
          (golden.cu_grade / py_or golden.cu_conc_grade DEFAULT_CU_CONC_GRADE) *
          (1 - c.cu_recovery) ∧
        c.nsr_mine = c.nsr_processing + c.recovery_loss ∧
        c.nsr_mineral_resources = (if (1 - golden.mine_dilution) * golden.ore_recovery = 0
          then c.nsr_mine else c.nsr_mine / ((1 - golden.mine_dilution) * golden.ore_recovery)) ∧
        c.dilution_loss = c.nsr_mineral_resources - c.nsr_mine)) = .ok true :=
  ⟨by decide, C1_cascade_decomposition golden (by decide)⟩

/-- C5: the pipeline is total over well-formed input: `compute_nsr_complete`
returns a result and raises no error — every division either has a nonzero
divisor (the concentrate ratio's divisor is the `or`-resolved concentrate
grade, never 0) or sits in a guarded branch. -/
theorem C5_pipeline_total (I : NSRInput) (_h : WellFormedInput I) :
    ∃ r, compute_nsr_complete I = .ok r :=
  complete_ok I

/-- Witness for C5 at the golden scenario input. -/
theorem C5_witness :
    WellFormedInput golden ∧ ∃ r, compute_nsr_complete golden = .ok r :=
  ⟨by decide, C5_pipeline_total golden (by decide)⟩

/-- C3 (amended): with a zero concentrate grade the concentrate-ratio
function never returns a value — but it fails with Python's
`ZeroDivisionError` from the unguarded division, not with an
InvalidParameter (`ValueError`) precondition check. -/
theorem C3_zero_conc_grade_raises (g rec : ℚ) :
    compute_conc_ratio g rec 0 = .error PyErr.zeroDivision := by
  unfold compute_conc_ratio
  norm_num

/-- Counterexample for C3 as stated: at `cu_conc_grade_pct = 0` the
function raises `ZeroDivisionError`, which is not an InvalidParameter
(`ValueError`). -/
theorem C3_counterexample :
    compute_conc_ratio 1 1 0 = .error PyErr.zeroDivision ∧
      is_invalid_parameter (compute_conc_ratio 1 1 0) = false := by
  decide

/-- C4 (amended): an explicitly supplied *nonzero* optional commercial
value is used as the effective value; a supplied `0.0` instead falls back
to the default, because resolution uses Python's truthiness-based `or`
(see `C4_counterexample`). -/
theorem C4_nonzero_supplied_used (I : NSRInput) (v : ℚ) (hv : v ≠ 0) :
    (I.cu_price = some v → (resolveInputs I).cu_price = v) ∧
    (I.au_price = some v → (resolveInputs I).au_price = v) ∧
    (I.ag_price = some v → (resolveInputs I).ag_price = v) ∧
    (I.cu_payability = some v → (resolveInputs I).cu_payability = v) ∧
    (I.cu_tc = some v → (resolveInputs I).cu_tc = v) ∧
    (I.cu_rc = some v → (resolveInputs I).cu_rc = v) ∧
    (I.cu_freight = some v → (resolveInputs I).cu_freight = v) ∧
    (I.cu_penalties = some v → (resolveInputs I).cu_penalties = v) ∧
    (I.au_payability = some v → (resolveInputs I).au_payability = v) ∧
    (I.au_rc = some v → (resolveInputs I).au_rc = v) ∧
    (I.ag_payability = some v → (resolveInputs I).ag_payability = v) ∧
    (I.ag_rc = some v → (resolveInputs I).ag_rc = v) ∧
    (I.cu_conc_grade = some v → (resolveInputs I).cu_conc_grade = v) := by
  refine ⟨?_, ?_, ?_, ?_, ?_, ?_, ?_, ?_, ?_, ?_, ?_, ?_, ?_⟩ <;>
    (intro hsome; simp [resolveInputs, py_or, hsome, hv])

/-- Counterexample for C4 as stated: supplying `cu_tc = 0.0` explicitly
does not make the effective treatment charge 0 — the default 40 is used. -/
theorem C4_counterexample :
    zero_tc_input.cu_tc = some 0 ∧ (resolveInputs zero_tc_input).cu_tc = 40 ∧
      ¬(resolveInputs zero_tc_input).cu_tc = 0 := by
  decide

/-- Witness for C4 (amended) at a concrete input with `cu_tc = 5`. -/
theorem C4_witness : (resolveInputs five_tc_input).cu_tc = 5 :=
  (C4_nonzero_supplied_used five_tc_input 5 (by norm_num)).2.2.2.2.1 rfl

theorem lookup_good {l : List (String × RecoveryParams)} {a : String}
    {p : RecoveryParams} (hall : l.all (fun kp => good_params kp.2) = true)
    (h : l.lookup a = some p) : good_params p = true := by
  induction l with
  | nil => simp [List.lookup] at h
  | cons kp rest ih =>
    obtain ⟨k, pv⟩ := kp
    rw [List.all_cons, Bool.and_eq_true] at hall
    rw [List.lookup] at h
    cases hak : a == k with
    | true =>
      rw [hak] at h
      simp only [Option.some.injEq] at h
      rw [← h]
      exact hall.1
    | false =>
      rw [hak] at h
      exact ih hall.2 h

theorem params_value_bounds (p : RecoveryParams) (hgood : good_params p = true)
    (g : ℚ) (hg : 0 ≤ g) :
    0 < (match p.fixed with
      | some f => min (f / 100) 1
      | none => min ((p.a * g + p.b) / 100) 1) ∧
    (match p.fixed with
      | some f => min (f / 100) 1
      | none => min ((p.a * g + p.b) / 100) 1) ≤ 1 := by
  unfold good_params at hgood
  cases hf : p.fixed with
  | some f =>
    rw [hf] at hgood
    have hfpos : 0 < f := of_decide_eq_true hgood
    show 0 < min (f / 100) 1 ∧ min (f / 100) 1 ≤ 1
    exact ⟨lt_min (by positivity) one_pos, min_le_right _ _⟩
  | none =>
    rw [hf] at hgood
    have hab : 0 ≤ p.a ∧ 0 < p.b := of_decide_eq_true hgood
    have hval : 0 < (p.a * g + p.b) / 100 := by
      have h1 := mul_nonneg hab.1 hg
      have h2 := hab.2
      positivity
    show 0 < min ((p.a * g + p.b) / 100) 1 ∧ min ((p.a * g + p.b) / 100) 1 ≤ 1
    exact ⟨lt_min hval one_pos, min_le_right _ _⟩

theorem recovery_bounds (g : ℚ) (area : String) (hg : 0 ≤ g) :
    0 < compute_cu_recovery g area ∧ compute_cu_recovery g area ≤ 1 := by
  have hgood :
      good_params ((RECOVERY_PARAMS.lookup area).getD DEFAULT_RECOVERY_PARAMS) = true := by
    cases hl : RECOVERY_PARAMS.lookup area with
    | none => decide
    | some p => exact lookup_good (by decide) hl
  exact params_value_bounds _ hgood g hg

/-- C10: for non-negative grade the recovery is a fraction in `(0,1]`;
areas with a fixed override return `fixed/100` capped at 1 regardless of
grade (in particular `"Deepening Above - 965"` always gives 0.929); every
other known area uses its `(a·grade + b)/100` capped at 1; an unknown area
falls back to the default coefficients `a = 3`, `b = 90`. -/
theorem C10_recovery_spec (g : ℚ) (area : String) (hg : 0 ≤ g) :
    (0 < compute_cu_recovery g area ∧ compute_cu_recovery g area ≤ 1) ∧
    compute_cu_recovery g "Deepening Above - 965" = 929 / 1000 ∧
    (∀ p, RECOVERY_PARAMS.lookup area = some p →
      (∀ f, p.fixed = some f → compute_cu_recovery g area = min (f / 100) 1) ∧
      (p.fixed = none →
        compute_cu_recovery g area = min ((p.a * g + p.b) / 100) 1)) ∧
    (RECOVERY_PARAMS.lookup area = none →
      compute_cu_recovery g area = min ((3 * g + 90) / 100) 1) := by
  refine ⟨recovery_bounds g area hg, ?_, ?_, ?_⟩
  · have hl : RECOVERY_PARAMS.lookup "Deepening Above - 965" =
        some ⟨40851 / 10000, 90346 / 1000, some (929 / 10)⟩ := by decide
    unfold compute_cu_recovery
    rw [hl]
    show min ((929:ℚ) / 10 / 100) 1 = 929 / 1000
    rw [min_eq_left (by norm_num)]
    norm_num
  · intro p hp
    constructor
    · intro f hf
      unfold compute_cu_recovery
      rw [hp]
      show (match p.fixed with
        | some f => min (f / 100) 1
        | none => min ((p.a * g + p.b) / 100) 1) = _
      rw [hf]
    · intro hf
      unfold compute_cu_recovery
      rw [hp]
      show (match p.fixed with
        | some f => min (f / 100) 1
        | none => min ((p.a * g + p.b) / 100) 1) = _
      rw [hf]
  · intro hn
    unfold compute_cu_recovery
    rw [hn]
    rfl

/-- Witness for C10 at grade 1.4 and area "Vermelhos Sul". -/
theorem C10_witness :
    (0:ℚ) ≤ 7 / 5 ∧
      ((0 < compute_cu_recovery (7 / 5) "Vermelhos Sul" ∧
          compute_cu_recovery (7 / 5) "Vermelhos Sul" ≤ 1) ∧
        compute_cu_recovery (7 / 5) "Deepening Above - 965" = 929 / 1000 ∧
        (∀ p, RECOVERY_PARAMS.lookup "Vermelhos Sul" = some p →
          (∀ f, p.fixed = some f →
            compute_cu_recovery (7 / 5) "Vermelhos Sul" = min (f / 100) 1) ∧
          (p.fixed = none → compute_cu_recovery (7 / 5) "Vermelhos Sul" =
            min ((p.a * (7 / 5) + p.b) / 100) 1)) ∧
        (RECOVERY_PARAMS.lookup "Vermelhos Sul" = none →
          compute_cu_recovery (7 / 5) "Vermelhos Sul" =
            min ((3 * (7 / 5) + 90) / 100) 1)) :=
  ⟨by norm_num, C10_recovery_spec (7 / 5) "Vermelhos Sul" (by norm_num)⟩

/-- C9 (amended): the `ebitda` field is populated iff at least one of the
five fields `mine_cost`, `development_cost`, `haul_cost`, `plant_cost`,
`ga_cost` is supplied.  `development_meters` is *not* part of the trigger:
supplying only it leaves `ebitda` empty (see `C9_counterexample`). -/
theorem C9_ebitda_trigger (I : NSRInput) :
    (compute_nsr_complete I).map (fun r => r.ebitda.isSome) =
      .ok (I.mine_cost.isSome || I.development_cost.isSome || I.haul_cost.isSome ||
        I.plant_cost.isSome || I.ga_cost.isSome) := by
  unfold compute_nsr_complete
  rw [core_ok]
  simp only [Except.map]
  refine congrArg Except.ok ?_
  show (coreOf I _).ebitda.isSome = _
  simp only [coreOf, id_eq]
  cases h : (I.mine_cost.isSome || I.development_cost.isSome || I.haul_cost.isSome ||
    I.plant_cost.isSome || I.ga_cost.isSome) <;> simp [h]

/-- Counterexample for C9 as stated: supplying only `development_meters`
does not populate `ebitda`. -/
theorem C9_counterexample :
    dev_meters_input.development_meters = some 5 ∧
    dev_meters_input.mine_cost = none ∧ dev_meters_input.development_cost = none ∧
    dev_meters_input.haul_cost = none ∧ dev_meters_input.plant_cost = none ∧
    dev_meters_input.ga_cost = none ∧
    (compute_nsr_complete dev_meters_input).map (fun r => r.ebitda.isSome) = .ok false := by
  decide

/-- C6 (amended): the `inputs_used` echo contains the identification and
ore fields as given, the resolved effective values of the optional
commercial fields, and the six operational-cost fields echoed *raw*
(`None` when absent, not resolved to defaults) — and it does *not* contain
`cu_penalties` at all (see `C6_counterexample`). -/
theorem C6_inputs_used_echo (I : NSRInput) :
    (compute_nsr_complete I).map (fun r => r.inputs_used.lookup "cu_penalties") = .ok none ∧
    (compute_nsr_complete I).map (fun r => r.inputs_used.lookup "mine") =
      .ok (some (.str I.mine)) ∧
    (compute_nsr_complete I).map (fun r => r.inputs_used.lookup "area") =
      .ok (some (.str I.area)) ∧
    (compute_nsr_complete I).map (fun r => r.inputs_used.lookup "cu_grade") =
      .ok (some (.rat I.cu_grade)) ∧
    (compute_nsr_complete I).map (fun r => r.inputs_used.lookup "au_grade") =
      .ok (some (.rat I.au_grade)) ∧
    (compute_nsr_complete I).map (fun r => r.inputs_used.lookup "ag_grade") =
      .ok (some (.rat I.ag_grade)) ∧
    (compute_nsr_complete I).map (fun r => r.inputs_used.lookup "ore_tonnage") =
      .ok (some (.rat I.ore_tonnage)) ∧
    (compute_nsr_complete I).map (fun r => r.inputs_used.lookup "mine_dilution") =
      .ok (some (.rat I.mine_dilution)) ∧
    (compute_nsr_complete I).map (fun r => r.inputs_used.lookup "ore_recovery") =
      .ok (some (.rat I.ore_recovery)) ∧
    (compute_nsr_complete I).map (fun r => r.inputs_used.lookup "cu_price") =
      .ok (some (.rat (py_or I.cu_price DEFAULT_CU_PRICE_PER_LB))) ∧
    (compute_nsr_complete I).map (fun r => r.inputs_used.lookup "au_price") =
      .ok (some (.rat (py_or I.au_price DEFAULT_AU_PRICE_PER_OZ))) ∧
    (compute_nsr_complete I).map (fun r => r.inputs_used.lookup "ag_price") =
      .ok (some (.rat (py_or I.ag_price DEFAULT_AG_PRICE_PER_OZ))) ∧
    (compute_nsr_complete I).map (fun r => r.inputs_used.lookup "cu_payability") =
      .ok (some (.rat (py_or I.cu_payability DEFAULT_CU_PAYABILITY))) ∧
    (compute_nsr_complete I).map (fun r => r.inputs_used.lookup "cu_tc") =
      .ok (some (.rat (py_or I.cu_tc DEFAULT_CU_TC))) ∧
    (compute_nsr_complete I).map (fun r => r.inputs_used.lookup "cu_rc") =
      .ok (some (.rat (py_or I.cu_rc DEFAULT_CU_RC))) ∧
    (compute_nsr_complete I).map (fun r => r.inputs_used.lookup "cu_freight") =
      .ok (some (.rat (py_or I.cu_freight DEFAULT_CU_FREIGHT))) ∧
    (compute_nsr_complete I).map (fun r => r.inputs_used.lookup "au_payability") =
      .ok (some (.rat (py_or I.au_payability DEFAULT_AU_PAYABILITY))) ∧
    (compute_nsr_complete I).map (fun r => r.inputs_used.lookup "au_rc") =
      .ok (some (.rat (py_or I.au_rc DEFAULT_AU_RC))) ∧
    (compute_nsr_complete I).map (fun r => r.inputs_used.lookup "ag_payability") =
      .ok (some (.rat (py_or I.ag_payability DEFAULT_AG_PAYABILITY))) ∧
    (compute_nsr_complete I).map (fun r => r.inputs_used.lookup "ag_rc") =
      .ok (some (.rat (py_or I.ag_rc DEFAULT_AG_RC))) ∧
    (compute_nsr_complete I).map (fun r => r.inputs_used.lookup "cu_conc_grade") =
      .ok (some (.rat (py_or I.cu_conc_grade DEFAULT_CU_CONC_GRADE))) ∧
    (compute_nsr_complete I).map (fun r => r.inputs_used.lookup "mine_cost") =
      .ok (some (.orat I.mine_cost)) ∧
    (compute_nsr_complete I).map (fun r => r.inputs_used.lookup "development_cost") =
      .ok (some (.orat I.development_cost)) ∧
    (compute_nsr_complete I).map (fun r => r.inputs_used.lookup "development_meters") =
      .ok (some (.orat I.development_meters)) ∧
    (compute_nsr_complete I).map (fun r => r.inputs_used.lookup "haul_cost") =
      .ok (some (.orat I.haul_cost)) ∧
    (compute_nsr_complete I).map (fun r => r.inputs_used.lookup "plant_cost") =
      .ok (some (.orat I.plant_cost)) ∧
    (compute_nsr_complete I).map (fun r => r.inputs_used.lookup "ga_cost") =
      .ok (some (.orat I.ga_cost)) := by
  unfold compute_nsr_complete
  rw [core_ok]
  simp only [Except.map]
  refine ⟨?_, ?_, ?_, ?_, ?_, ?_, ?_, ?_, ?_, ?_, ?_, ?_, ?_, ?_, ?_, ?_, ?_,
    ?_, ?_, ?_, ?_, ?_, ?_, ?_, ?_, ?_, ?_⟩ <;>
    (refine congrArg Except.ok ?_
     show (coreOf _ _).inputs_used.lookup _ = _
     simp [coreOf, mk_inputs_used, List.lookup, resolveInputs])

/-- Counterexample for C6 as stated: the echo of an input that supplies
`cu_penalties` and omits `mine_cost` has no `cu_penalties` entry at all,
and its `mine_cost` entry echoes the raw `None` rather than a resolved
default value. -/
theorem C6_counterexample :
    penalties_input.cu_penalties = some 7 ∧
    (compute_nsr_complete penalties_input).map
      (fun r => r.inputs_used.lookup "cu_penalties") = .ok none ∧
    penalties_input.mine_cost = none ∧
    (compute_nsr_complete penalties_input).map
      (fun r => r.inputs_used.lookup "mine_cost") = .ok (some (.orat none)) := by
  decide

theorem py_rnd_close (q : ℚ) (h : Int.fract q ≠ 1 / 2) :
    |(py_rnd q : ℚ) - q| < 1 / 2 := by
  have hfr : Int.fract q = q - ⌊q⌋ := rfl
  rw [hfr] at h
  have h0 : (0:ℚ) ≤ q - ⌊q⌋ := by
    have := Int.fract_nonneg q
    rwa [hfr] at this
  have h1 : q - ⌊q⌋ < 1 := by
    have := Int.fract_lt_one q
    rwa [hfr] at this
  unfold py_rnd
  by_cases hlt : q - ⌊q⌋ < 1 / 2
  · rw [if_pos hlt, abs_sub_comm, abs_of_nonneg h0]
    exact hlt
  · rw [if_neg hlt]
    by_cases hgt : 1 / 2 < q - ⌊q⌋
    · rw [if_pos hgt]
      push_cast
      rw [show (⌊q⌋ : ℚ) + 1 - q = 1 - (q - ⌊q⌋) by ring,
        abs_of_nonneg (by linarith)]
      linarith
    · exact absurd (le_antisymm (not_lt.mp hgt) (not_lt.mp hlt)) h

theorem py_round2_add3 (a b c : ℚ)
    (ha : no_tie a) (hb : no_tie b) (hc : no_tie c) (hs : no_tie (a + b + c)) :
    |py_round 2 (a + b + c) - (py_round 2 a + py_round 2 b + py_round 2 c)| ≤ 1 / 100 := by
  have Ha := py_rnd_close (a * 100) ha
  have Hb := py_rnd_close (b * 100) hb
  have Hc := py_rnd_close (c * 100) hc
  have Hs := py_rnd_close ((a + b + c) * 100) hs
  set A := py_rnd (a * 100) with hA
  set B := py_rnd (b * 100) with hB
  set C := py_rnd (c * 100) with hC
  set S := py_rnd ((a + b + c) * 100) with hS
  have habs : |(S : ℚ) - (A + B + C)| < 2 := by
    obtain ⟨ha1, ha2⟩ := abs_lt.mp Ha
    obtain ⟨hb1, hb2⟩ := abs_lt.mp Hb
    obtain ⟨hc1, hc2⟩ := abs_lt.mp Hc
    obtain ⟨hs1, hs2⟩ := abs_lt.mp Hs
    rw [abs_lt]
    refine ⟨?_, ?_⟩ <;> linarith
  have hint : |S - (A + B + C)| ≤ 1 := by
    have h2 : ((|S - (A + B + C)| : ℤ) : ℚ) < 2 := by
      push_cast
      exact habs
    have h3 : |S - (A + B + C)| < 2 := by exact_mod_cast h2
    omega
  have hintq : |(S : ℚ) - (A + B + C)| ≤ 1 := by
    have : ((|S - (A + B + C)| : ℤ) : ℚ) ≤ 1 := by exact_mod_cast hint
    rwa [Int.cast_abs, Int.cast_sub, Int.cast_add, Int.cast_add] at this
  have key : ∀ x : ℚ, py_round 2 x = (py_rnd (x * 100) : ℚ) / 100 := by
    intro x
    unfold py_round
    norm_num
  rw [key, key, key, key, ← hA, ← hB, ← hC, ← hS,
    show (S:ℚ) / 100 - ((A:ℚ) / 100 + (B:ℚ) / 100 + (C:ℚ) / 100) =
      ((S:ℚ) - ((A:ℚ) + (B:ℚ) + (C:ℚ))) / 100 from by ring,
    abs_div, abs_of_nonneg (by norm_num : (0:ℚ) ≤ 100)]
  gcongr

theorem py_rnd_le (q : ℚ) : |(py_rnd q : ℚ) - q| ≤ 1 / 2 := by
  have h0 : (0:ℚ) ≤ q - ⌊q⌋ := by
    have := Int.fract_nonneg q
    rwa [show Int.fract q = q - ⌊q⌋ from rfl] at this
  have h1 : q - ⌊q⌋ < 1 := by
    have := Int.fract_lt_one q
    rwa [show Int.fract q = q - ⌊q⌋ from rfl] at this
  unfold py_rnd
  by_cases hlt : q - ⌊q⌋ < 1 / 2
  · rw [if_pos hlt, abs_sub_comm, abs_of_nonneg h0]
    linarith
  · rw [if_neg hlt]
    by_cases hgt : 1 / 2 < q - ⌊q⌋
    · rw [if_pos hgt]
      push_cast
      rw [show (⌊q⌋ : ℚ) + 1 - q = 1 - (q - ⌊q⌋) by ring,
        abs_of_nonneg (by linarith)]
      linarith
    · have heq : q - ⌊q⌋ = 1 / 2 := le_antisymm (not_lt.mp hgt) (not_lt.mp hlt)
      rw [if_neg hgt]
      by_cases hev : ⌊q⌋ % 2 = 0
      · rw [if_pos hev, abs_sub_comm, abs_of_nonneg h0, heq]
      · rw [if_neg hev]
        push_cast
        rw [show (⌊q⌋ : ℚ) + 1 - q = 1 - (q - ⌊q⌋) by ring,
          abs_of_nonneg (by linarith), heq]
        norm_num

/-- Unconditional bound: rounding three summands and their sum to 2
decimals can tear the additivity identity by at most 0.02 (reached
exactly on half-cent ties, see `C8_counterexample`). -/
theorem py_round2_add3_le2 (a b c : ℚ) :
    |py_round 2 (a + b + c) - (py_round 2 a + py_round 2 b + py_round 2 c)| ≤ 2 / 100 := by
  have Ha := py_rnd_le (a * 100)
  have Hb := py_rnd_le (b * 100)
  have Hc := py_rnd_le (c * 100)
  have Hs := py_rnd_le ((a + b + c) * 100)
  set A := py_rnd (a * 100) with hA
  set B := py_rnd (b * 100) with hB
  set C := py_rnd (c * 100) with hC
  set S := py_rnd ((a + b + c) * 100) with hS
  have habs : |(S : ℚ) - (A + B + C)| ≤ 2 := by
    obtain ⟨ha1, ha2⟩ := abs_le.mp Ha
    obtain ⟨hb1, hb2⟩ := abs_le.mp Hb
    obtain ⟨hc1, hc2⟩ := abs_le.mp Hc
    obtain ⟨hs1, hs2⟩ := abs_le.mp Hs
    rw [abs_le]
    refine ⟨?_, ?_⟩ <;> linarith
  have key : ∀ x : ℚ, py_round 2 x = (py_rnd (x * 100) : ℚ) / 100 := by
    intro x
    unfold py_round
    norm_num
  rw [key, key, key, key, ← hA, ← hB, ← hC, ← hS,
    show (S:ℚ) / 100 - ((A:ℚ) / 100 + (B:ℚ) / 100 + (C:ℚ) / 100) =
      ((S:ℚ) - ((A:ℚ) + (B:ℚ) + (C:ℚ))) / 100 from by ring,
    abs_div, abs_of_nonneg (by norm_num : (0:ℚ) ≤ 100)]
  gcongr

theorem bisect_loop_ok (base : NSRInput) (var : String) (t tol : ℚ) :
    ∀ fuel a b fa iters, ∃ a' b' k,
      bisect_loop base var t tol fuel a b fa iters = .ok (a', b', k) := by
  intro fuel
  induction fuel with
  | zero => intro a b fa iters; exact ⟨a, b, iters, rfl⟩
  | succ n ih =>
    intro a b fa iters
    obtain ⟨v, hv⟩ := nsr_for_value_ok base var ((a + b) / 2)
    simp only [bisect_loop]
    simp only [hv]
    by_cases h1 : |v - t| ≤ tol
    · rw [if_pos h1]
      exact ⟨a, b, iters + 1, rfl⟩
    · rw [if_neg h1]
      by_cases h2 : fa * (v - t) < 0
      · rw [if_pos h2]
        exact ih a ((a + b) / 2) fa (iters + 1)
      · rw [if_neg h2]
        exact ih ((a + b) / 2) b (v - t) (iters + 1)

/-- The bisection loop runs at most `fuel` more iterations, and whenever
it stops before exhausting them it stopped at the tolerance break, so the
final midpoint's NSR is within tolerance of the target. -/
theorem bisect_loop_spec (base : NSRInput) (var : String) (t tol : ℚ) :
    ∀ fuel a b fa iters a' b' k,
      bisect_loop base var t tol fuel a b fa iters = .ok (a', b', k) →
      iters ≤ k ∧ k ≤ iters + fuel ∧
      (k < iters + fuel →
        ∃ v, _compute_nsr_for_value base var ((a' + b') / 2) = .ok v ∧ |v - t| ≤ tol) := by
  intro fuel
  induction fuel with
  | zero =>
    intro a b fa iters a' b' k h
    simp only [bisect_loop, Except.ok.injEq, Prod.mk.injEq] at h
    obtain ⟨-, -, hk⟩ := h
    subst hk
    exact ⟨le_refl _, by omega, fun hlt => absurd hlt (by omega)⟩
  | succ n ih =>
    intro a b fa iters a' b' k h
    obtain ⟨v, hv⟩ := nsr_for_value_ok base var ((a + b) / 2)
    simp only [bisect_loop] at h
    simp only [hv] at h
    by_cases h1 : |v - t| ≤ tol
    · rw [if_pos h1] at h
      simp only [Except.ok.injEq, Prod.mk.injEq] at h
      obtain ⟨ha', hb', hk⟩ := h
      subst ha'
      subst hb'
      subst hk
      exact ⟨by omega, by omega, fun _ => ⟨v, hv, h1⟩⟩
    · rw [if_neg h1] at h
      by_cases h2 : fa * (v - t) < 0
      · rw [if_pos h2] at h
        obtain ⟨q1, q2, q3⟩ := ih a ((a + b) / 2) fa (iters + 1) a' b' k h
        exact ⟨by omega, by omega, fun hlt => q3 (by omega)⟩
      · rw [if_neg h2] at h
        obtain ⟨q1, q2, q3⟩ := ih ((a + b) / 2) b (v - t) (iters + 1) a' b' k h
        exact ⟨by omega, by omega, fun hlt => q3 (by omega)⟩

/-- C7: when the NSR at both registry bounds lies on the same side of the
target and the early exit does not trigger, `goal_seek` returns a
structured result (no exception): `converged = false`, zero iterations,
`bound_hit` naming the bound whose NSR is closer (in absolute value) to
the target, and `threshold_value` set to that bound. -/
theorem C7_bound_hit (base : NSRInput) (var dir unit : String)
    (lb ub t tol : ℚ) (maxit : ℕ) (cur cnsr nlo nup : ℚ)
    (hreg : GOAL_SEEK_VARIABLES.lookup var = some (dir, lb, ub, unit))
    (hcur : _get_variable_value base var = .ok cur)
    (hcnsr : _compute_nsr_for_value base var cur = .ok cnsr)
    (hne : ¬ |cnsr - t| ≤ tol)
    (hlo : _compute_nsr_for_value base var lb = .ok nlo)
    (hup : _compute_nsr_for_value base var ub = .ok nup)
    (hsame : 0 < (nlo - t) * (nup - t)) :
    ∃ r, goal_seek base var t tol maxit = .ok r ∧
      r.converged = false ∧ r.iterations = 0 ∧ r.target_nsr = t ∧
      (|nlo - t| < |nup - t| →
        r.bound_hit = "lower" ∧ r.threshold_value = py_round 6 lb ∧
        r.tolerance_achieved = |nlo - t|) ∧
      (¬ |nlo - t| < |nup - t| →
        r.bound_hit = "upper" ∧ r.threshold_value = py_round 6 ub ∧
        r.tolerance_achieved = |nup - t|) := by
  simp only [goal_seek, hreg, hcur, hcnsr, hlo, hup]
  rw [if_neg hne, if_pos hsame]
  by_cases hcl : |nlo - t| < |nup - t|
  · rw [if_pos hcl]
    exact ⟨_, rfl, rfl, rfl, rfl, fun _ => ⟨rfl, rfl, rfl⟩, fun hc => absurd hcl hc⟩
  · rw [if_neg hcl]
    exact ⟨_, rfl, rfl, rfl, rfl, fun hc => absurd hc hcl, fun _ => ⟨rfl, rfl, rfl⟩⟩

/-- Witness for C7: with the golden input, solving `cu_price` toward an
unreachable target of 10⁹ $/t hits the upper bound. -/
theorem C7_witness :
    ∃ r, goal_seek golden "cu_price" (10 ^ 9) (1 / 100) 50 = .ok r ∧
      r.converged = false ∧ r.iterations = 0 ∧ r.target_nsr = 10 ^ 9 ∧
      (|(-3525 : ℚ) / 100 - 10 ^ 9| < |(140445 : ℚ) / 100 - 10 ^ 9| →
        r.bound_hit = "lower" ∧ r.threshold_value = py_round 6 (1 / 100) ∧
        r.tolerance_achieved = |(-3525 : ℚ) / 100 - 10 ^ 9|) ∧
      (¬ |(-3525 : ℚ) / 100 - 10 ^ 9| < |(140445 : ℚ) / 100 - 10 ^ 9| →
        r.bound_hit = "upper" ∧ r.threshold_value = py_round 6 50 ∧
        r.tolerance_achieved = |(140445 : ℚ) / 100 - 10 ^ 9|) :=
  C7_bound_hit golden "cu_price" "revenue" "$/lb" (1 / 100) 50 (10 ^ 9) (1 / 100)
    50 (628 / 100) (14532 / 100) (-3525 / 100) (140445 / 100)
    (by decide) (by decide) (by decide) (by decide) (by decide) (by decide) (by decide)

/-- C2 (amended): under a straddle with no early exit, `goal_seek` always
reports `converged = true` with `iterations ≤ max_iterations`, and the
returned threshold is the rounded midpoint of the final bisection
interval; whenever the loop stopped before exhausting `max_iterations`
(`iterations < max_iterations`), that midpoint's NSR is within tolerance
of the target.  When all iterations are spent, the result can lie outside
tolerance while still reporting `converged = true` (see
`C2_counterexample`). -/
theorem C2_bisection_convergence (base : NSRInput) (var dir unit : String)
    (lb ub t tol : ℚ) (maxit : ℕ) (cur cnsr nlo nup : ℚ)
    (hreg : GOAL_SEEK_VARIABLES.lookup var = some (dir, lb, ub, unit))
    (hcur : _get_variable_value base var = .ok cur)
    (hcnsr : _compute_nsr_for_value base var cur = .ok cnsr)
    (hne : ¬ |cnsr - t| ≤ tol)
    (hlo : _compute_nsr_for_value base var lb = .ok nlo)
    (hup : _compute_nsr_for_value base var ub = .ok nup)
    (hstraddle : ¬ 0 < (nlo - t) * (nup - t)) :
    ∃ r a b, goal_seek base var t tol maxit = .ok r ∧
      r.converged = true ∧ r.iterations ≤ maxit ∧
      bisect_loop base var t tol maxit lb ub (nlo - t) 0 = .ok (a, b, r.iterations) ∧
      r.threshold_value = py_round 6 ((a + b) / 2) ∧
      (r.iterations < maxit →
        ∃ v, _compute_nsr_for_value base var ((a + b) / 2) = .ok v ∧ |v - t| ≤ tol) := by
  obtain ⟨a, b, k, hloop⟩ := bisect_loop_ok base var t tol maxit lb ub (nlo - t) 0
  obtain ⟨q1, q2, q3⟩ := bisect_loop_spec base var t tol maxit lb ub (nlo - t) 0 a b k hloop
  obtain ⟨w, hw⟩ := nsr_for_value_ok base var ((a + b) / 2)
  simp only [goal_seek, hreg, hcur, hcnsr, hlo, hup]
  rw [if_neg hne, if_neg hstraddle]
  simp only [hloop]
  simp only [hw]
  refine ⟨_, a, b, rfl, rfl, ?_, ?_, rfl, ?_⟩
  · show k ≤ maxit
    omega
  · rfl
  · intro hlt
    have hlt2 : k < maxit := hlt
    exact q3 (by omega)

/-- Witness for C2 (amended): with the golden input, solving `cu_price`
for a target NSR of 150 $/t. -/
theorem C2_witness :
    ∃ r a b, goal_seek golden "cu_price" 150 (1 / 100) 50 = .ok r ∧
      r.converged = true ∧ r.iterations ≤ 50 ∧
      bisect_loop golden "cu_price" 150 (1 / 100) 50 (1 / 100) 50
        (-3525 / 100 - 150) 0 = .ok (a, b, r.iterations) ∧
      r.threshold_value = py_round 6 ((a + b) / 2) ∧
      (r.iterations < 50 →
        ∃ v, _compute_nsr_for_value golden "cu_price" ((a + b) / 2) = .ok v ∧
          |v - 150| ≤ 1 / 100) :=
  C2_bisection_convergence golden "cu_price" "revenue" "$/lb" (1 / 100) 50 150
    (1 / 100) 50 (628 / 100) (14532 / 100) (-3525 / 100) (140445 / 100)
    (by decide) (by decide) (by decide) (by decide) (by decide) (by decide) (by decide)

/-- Counterexample for C2 as stated: at `steep_input` (copper price 10¹³
$/lb) with `steep_target`, the straddle holds and the early exit does not
trigger, yet after all 50 iterations `goal_seek` reports
`converged = true` while re-running the pipeline at the returned
`threshold_value` gives an NSR far outside the 0.01 tolerance. -/
theorem C2_counterexample :
    (_compute_nsr_for_value steep_input "cu_grade" 1).map
      (fun v => decide (|v - steep_target| ≤ 1 / 100)) = .ok false ∧
    (_compute_nsr_for_value steep_input "cu_grade" (1 / 1000)).bind
      (fun v1 => (_compute_nsr_for_value steep_input "cu_grade" 20).map
        (fun v2 => decide (0 < (v1 - steep_target) * (v2 - steep_target)))) =
      .ok false ∧
    (goal_seek steep_input "cu_grade" steep_target (1 / 100) 50).map
      (fun r => (r.converged, r.iterations,
        (_compute_nsr_for_value steep_input "cu_grade" r.threshold_value).map
          (fun v => decide (|v - steep_target| ≤ 1 / 100)))) =
      .ok (true, 50, Except.ok false) := by
  decide

end Mining
